import Mathlib

/-!
Shallow embedding of the WinWhisper web media-recorder service
(`createMediaRecorderServiceWeb` and its helpers `getStreamForDeviceId`,
`getFirstAvailableStream`, `acquireStreamAndSetUpRecordingSession`), together
with proofs about the recording-session lifecycle.

Modelling conventions:
- A `Blob` is its byte list; its size is the length, and the artifact built by
  `stopRecording` (`new Blob(recordedChunks, { type: mimeType })`) is the
  concatenation of the chunk byte lists tagged with the mime type.
- The browser environment (`navigator.mediaDevices`, the `MediaRecorder`
  constructor) is an explicit `Env`: `enumOk` is whether the permission probe
  plus `enumerateDevices` succeed, `streamFor` is what `getUserMedia` with an
  exact device id yields, `recorderOk`/`recorderMimeType` describe the
  `MediaRecorder` constructor.
- Each service operation is a pure function from the module-level state
  (`currentSession : Option RecordingSession`) to the new state plus the
  ordered list of observable events: the mutation-envelope callbacks
  (`onMutate`/`onSuccess`/`onError`/`onSettled`, errors identified by their
  source title strings), acquisition attempts, track stops and recorder stops.
- The `dataavailable` listener installed by `startRecording` is `deliverChunk`;
  asynchronous chunk delivery is modelled by interleaving `deliverChunk` calls
  between operations.
-/

namespace WinWhisper

structure Blob where
  bytes : List Nat
deriving DecidableEq

/-- The blob built at stop time: concatenated bytes tagged with a mime type. -/
structure Artifact where
  bytes : List Nat
  mimeType : String
deriving DecidableEq

structure Device where
  deviceId : String
  kind : String
  label : String
deriving DecidableEq

/-- A `MediaStream`: an identity (to tell re-resolved streams apart), the
`active` liveness flag, and its track ids. -/
structure MediaStream where
  id : Nat
  active : Bool
  tracks : List Nat
deriving DecidableEq

/-- A constructed `MediaRecorder`: which stream it records from, its mime type
and the bitrate it was configured with. -/
structure MediaRecorder where
  streamId : Nat
  mimeType : String
  bitsPerSecond : Nat
deriving DecidableEq

structure RecordingSessionSettings where
  deviceId : String
  bitsPerSecond : Nat
deriving DecidableEq

/-- The `recorder` field of a session: `{ mediaRecorder, recordedChunks,
recordingId }`. -/
structure Recorder where
  mediaRecorder : MediaRecorder
  recordedChunks : List Blob
  recordingId : String
deriving DecidableEq

structure RecordingSession where
  settings : RecordingSessionSettings
  stream : MediaStream
  recorder : Option Recorder
deriving DecidableEq

/-- The browser/platform environment the service runs against. -/
structure Env where
  enumOk : Bool
  devices : List Device
  streamFor : String → Option MediaStream
  recorderOk : Bool
  recorderMimeType : String

/-- The module-level mutable state: `let currentSession = null`. -/
abbrev SvcState := Option RecordingSession

/-- Observable events of one operation, in order: envelope callbacks plus the
externally visible effects (stream acquisition attempts, track stops,
recorder stop). -/
inductive Ev where
  | onMutate
  | onSuccess (artifact : Option Artifact)
  | onError (title : String)
  | onSettled
  | enumerate
  | acquire (deviceId : String)
  | trackStop (trackId : Nat)
  | recorderStop
deriving DecidableEq

def Ev.isSettled : Ev → Bool
  | .onSettled => true
  | _ => false

def Ev.isSuccess : Ev → Bool
  | .onSuccess _ => true
  | _ => false

def Ev.isError : Ev → Bool
  | .onError _ => true
  | _ => false

/-- Events that touch the audio subsystem to resolve a stream. -/
def Ev.isAcquisition : Ev → Bool
  | .enumerate => true
  | .acquire _ => true
  | _ => false

def TIMESLICE_MS : Nat := 1000

/-- `getStreamForDeviceId`: one `getUserMedia` request bound to the exact
device id. -/
def getStreamForDeviceId (env : Env) (recordingDeviceId : String) :
    Option MediaStream × List Ev :=
  (env.streamFor recordingDeviceId, [Ev.acquire recordingDeviceId])

/-- The `audioinput` filter applied to `enumerateDevices()`. -/
def audioInputDevices (env : Env) : List Device :=
  env.devices.filter (fun d => d.kind == "audioinput")

/-- The `for (const device of recordingDevices)` loop of
`getFirstAvailableStream`: attempt each device in listed order, return the
first success. -/
def tryEachDevice (env : Env) : List Device → Option MediaStream × List Ev
  | [] => (none, [])
  | d :: ds =>
    match env.streamFor d.deviceId with
    | some s => (some s, [Ev.acquire d.deviceId])
    | none =>
      let rest := tryEachDevice env ds
      (rest.1, Ev.acquire d.deviceId :: rest.2)

/-- `getFirstAvailableStream`: enumerate audio input devices (the permission
probe and `enumerateDevices` call, which can fail as a whole), then try each
in order. -/
def getFirstAvailableStream (env : Env) : Option MediaStream × List Ev :=
  if env.enumOk then
    let rest := tryEachDevice env (audioInputDevices env)
    (rest.1, Ev.enumerate :: rest.2)
  else
    (none, [Ev.enumerate])

/-- `acquireStreamAndSetUpRecordingSession`: empty device id goes straight to
the fallback; otherwise try the preferred device first and fall back on
failure. The callers translate the `some`/`none` result into their own
`onSuccess`/`onError` callbacks, exactly as the source passes custom inner
callbacks. -/
def acquireStreamAndSetUpRecordingSession (env : Env)
    (settings : RecordingSessionSettings) : Option MediaStream × List Ev :=
  if settings.deviceId = "" then
    getFirstAvailableStream env
  else
    match env.streamFor settings.deviceId with
    | some s => (some s, [Ev.acquire settings.deviceId])
    | none =>
      let fb := getFirstAvailableStream env
      (fb.1, Ev.acquire settings.deviceId :: fb.2)

/-- `initRecordingSession`. -/
def initRecordingSession (env : Env) (settings : RecordingSessionSettings)
    (s : SvcState) : SvcState × List Ev :=
  match s with
  | some sess =>
    (some sess, [Ev.onMutate, Ev.onError "⚠️ Session Already Active", Ev.onSettled])
  | none =>
    let acq := acquireStreamAndSetUpRecordingSession env settings
    match acq.1 with
    | some stream =>
      (some { settings := settings, stream := stream, recorder := none },
        Ev.onMutate :: (acq.2 ++ [Ev.onSuccess none, Ev.onSettled]))
    | none =>
      (none,
        Ev.onMutate :: (acq.2 ++ [Ev.onError "🎤 Microphone Access Error", Ev.onSettled]))

/-- `closeRecordingSession`.  Note the no-session branch of the source returns
right after `onError` without calling `onSettled`. -/
def closeRecordingSession (s : SvcState) : SvcState × List Ev :=
  match s with
  | none => (none, [Ev.onMutate, Ev.onError "❌ No Active Session"])
  | some sess =>
    match sess.recorder with
    | some _ =>
      (some sess, [Ev.onMutate, Ev.onError "⏺️ Recording in Progress", Ev.onSettled])
    | none =>
      (none,
        Ev.onMutate :: (sess.stream.tracks.map Ev.trackStop
          ++ [Ev.onSuccess none, Ev.onSettled]))

/-- `startRecording`.  The source destructures `const { stream, settings } =
currentSession` before the staleness check; the refresh branch reassigns
`currentSession` on success (or fires `onError` and falls through on failure),
but the `MediaRecorder` is then constructed from the earlier destructured
`stream` binding and attached to whatever `currentSession` now is. -/
def startRecording (env : Env) (recordingId : String) (s : SvcState) :
    SvcState × List Ev :=
  match s with
  | none => (none, [Ev.onMutate, Ev.onError "❌ No Active Session", Ev.onSettled])
  | some sess =>
    let stream := sess.stream
    let settings := sess.settings
    let refreshed : RecordingSession × List Ev :=
      if stream.active then (sess, [])
      else
        let acq := acquireStreamAndSetUpRecordingSession env settings
        match acq.1 with
        | some newStream =>
          ({ settings := settings, stream := newStream, recorder := none }, acq.2)
        | none => (sess, acq.2 ++ [Ev.onError "🎤 Microphone Access Error"])
    if env.recorderOk then
      let newRecorder : MediaRecorder :=
        { streamId := stream.id, mimeType := env.recorderMimeType,
          bitsPerSecond := settings.bitsPerSecond }
      let newCapture : Recorder :=
        { mediaRecorder := newRecorder, recordedChunks := [],
          recordingId := recordingId }
      (some { refreshed.1 with recorder := some newCapture },
        Ev.onMutate :: (refreshed.2 ++ [Ev.onSuccess none, Ev.onSettled]))
    else
      (some refreshed.1,
        Ev.onMutate :: (refreshed.2
          ++ [Ev.onError "🎙️ Recording Setup Failed", Ev.onSettled]))

/-- The `dataavailable` listener body: drop the event when there is no current
session or the chunk has size zero, otherwise append to the active capture's
chunk list (the optional chaining `currentSession.recorder?.` makes the append
a no-op when no capture is active). -/
def deliverChunk (data : Blob) (s : SvcState) : SvcState :=
  match s with
  | none => none
  | some sess =>
    if data.bytes.length = 0 then some sess
    else
      match sess.recorder with
      | none => some sess
      | some r =>
        some { sess with recorder := some ({ r with recordedChunks := r.recordedChunks ++ [data] }) }

/-- A sequence of `dataavailable` deliveries in order. -/
def deliverChunks (cs : List Blob) (s : SvcState) : SvcState :=
  cs.foldl (fun st c => deliverChunk c st) s

/-- `stopRecording`.  Finalization resolves with a blob concatenating the
recorded chunks, tagged with the recorder's mime type; the state is returned
as the source leaves it (the `recorder` field is not written). -/
def stopRecording (s : SvcState) : SvcState × List Ev :=
  match s with
  | none => (none, [Ev.onMutate, Ev.onError "⚠️ Nothing to Stop", Ev.onSettled])
  | some sess =>
    match sess.recorder with
    | none => (some sess, [Ev.onMutate, Ev.onError "⚠️ Nothing to Stop", Ev.onSettled])
    | some r =>
      let artifact : Artifact :=
        { bytes := (r.recordedChunks.map Blob.bytes).flatten,
          mimeType := r.mediaRecorder.mimeType }
      (some sess,
        [Ev.onMutate, Ev.recorderStop, Ev.onSuccess (some artifact), Ev.onSettled])

/-- `cancelRecording`: stop every stream track, stop the recorder, clear the
active capture. -/
def cancelRecording (s : SvcState) : SvcState × List Ev :=
  match s with
  | none => (none, [Ev.onMutate, Ev.onError "⚠️ Nothing to Cancel", Ev.onSettled])
  | some sess =>
    match sess.recorder with
    | none =>
      (some sess, [Ev.onMutate, Ev.onError "⚠️ Nothing to Cancel", Ev.onSettled])
    | some _ =>
      (some { sess with recorder := none },
        Ev.onMutate :: (sess.stream.tracks.map Ev.trackStop
          ++ [Ev.recorderStop, Ev.onSuccess none, Ev.onSettled]))

/-- Statement-side invariant: every chunk stored in the active capture is
non-empty. -/
def chunksNonEmpty : SvcState → Bool
  | none => true
  | some sess =>
    match sess.recorder with
    | none => true
    | some r => r.recordedChunks.all (fun c => !c.bytes.isEmpty)

/-- Statement-side helper: the devices the fallback loop attempts, in listed
order — every failing device up to and including the first succeeding one. -/
def attemptedDevices (env : Env) (ds : List Device) : List Device :=
  (ds.takeWhile fun d => (env.streamFor d.deviceId).isNone) ++
    ((ds.dropWhile fun d => (env.streamFor d.deviceId).isNone).take 1)

/-! ### Concrete scenarios used by the closed theorems and witnesses -/

/-- An environment where every exact-device request yields a fresh active
stream and the recorder constructor succeeds. -/
def envStd : Env :=
  { enumOk := true, devices := [], streamFor := fun _ => some ⟨1, true, [1]⟩,
    recorderOk := true, recorderMimeType := "audio/webm" }

def settingsStd : RecordingSessionSettings := { deviceId := "mic", bitsPerSecond := 128000 }

/-- An environment with no devices at all: every acquisition fails, yet the
recorder constructor succeeds. -/
def envNoDevices : Env :=
  { enumOk := true, devices := [], streamFor := fun _ => none,
    recorderOk := true, recorderMimeType := "audio/webm" }

/-- A session holding a stream that has gone inactive (id 0), with no active
capture. -/
def staleSession : RecordingSession :=
  { settings := settingsStd, stream := { id := 0, active := false, tracks := [0] },
    recorder := none }

/-- A catalog with two audio input devices where only the second one works. -/
def envTwoDevices : Env :=
  { enumOk := true,
    devices := [⟨"D1", "audioinput", "Mic 1"⟩, ⟨"D2", "audioinput", "Mic 2"⟩],
    streamFor := fun d => if d = "D2" then some ⟨2, true, [2]⟩ else none,
    recorderOk := true, recorderMimeType := "audio/webm" }

/-! ### Supporting lemmas -/

/-- Delivering a list of non-empty chunks to a state with an active capture
appends them, in order, to the capture's chunk list. -/
theorem deliverChunks_active (sess : RecordingSession) (r : Recorder) (cs : List Blob)
    (hcs : ∀ c ∈ cs, c.bytes ≠ []) :
    deliverChunks cs (some { sess with recorder := some r }) =
      some { sess with recorder := some ({ r with recordedChunks := r.recordedChunks ++ cs }) } := by
  induction cs generalizing r with
  | nil => simp [deliverChunks]
  | cons c cs ih =>
    have hc : c.bytes ≠ [] := hcs c (by simp)
    have hlen : ¬ c.bytes.length = 0 := by
      simpa [List.length_eq_zero] using hc
    have hstep :
        deliverChunk c (some { sess with recorder := some r }) =
          some { sess with recorder := some ({ r with recordedChunks := r.recordedChunks ++ [c] }) } := by
      simp [deliverChunk, hlen]
    have hrest := ih ({ r with recordedChunks := r.recordedChunks ++ [c] })
      (fun d hd => hcs d (by simp [hd]))
    simp only [deliverChunks, List.foldl_cons] at *
    rw [hstep, hrest]
    simp

/-- The fallback loop returns the first device, in listed order, whose
acquisition succeeds. -/
theorem tryEachDevice_result (env : Env) (ds : List Device) :
    (tryEachDevice env ds).1 = ds.findSome? (fun d => env.streamFor d.deviceId) := by
  induction ds with
  | nil => rfl
  | cons d ds ih =>
    cases h : env.streamFor d.deviceId with
    | some s => simp [tryEachDevice, h, List.findSome?_cons, ih]
    | none => simp [tryEachDevice, h, List.findSome?_cons, ih]

/-- The fallback loop fails exactly when every listed device fails. -/
theorem tryEachDevice_none_iff (env : Env) (ds : List Device) :
    (tryEachDevice env ds).1 = none ↔ ∀ d ∈ ds, env.streamFor d.deviceId = none := by
  induction ds with
  | nil => simp [tryEachDevice]
  | cons d ds ih =>
    cases h : env.streamFor d.deviceId with
    | some s => simp [tryEachDevice, h]
    | none => simp [tryEachDevice, h, ih]

/-- The fallback loop attempts acquisition exactly for the failing devices up
to and including the first success, in listed order. -/
theorem tryEachDevice_trace (env : Env) (ds : List Device) :
    (tryEachDevice env ds).2 =
      (attemptedDevices env ds).map (fun d => Ev.acquire d.deviceId) := by
  induction ds with
  | nil => rfl
  | cons d ds ih =>
    cases h : env.streamFor d.deviceId with
    | some s =>
      simp [tryEachDevice, attemptedDevices, h, List.takeWhile_cons, List.dropWhile_cons]
    | none =>
      simp [tryEachDevice, attemptedDevices, h, List.takeWhile_cons, List.dropWhile_cons,
        ih, attemptedDevices]

/-! ### Claim theorems -/

/-- C1: for any sequence of non-empty chunks delivered while the capture opened
by `startRecording` is active, `stopRecording` succeeds with an artifact equal
to the concatenation of the chunks in delivery order, tagged with the media
recorder's mime type. -/
theorem stopRecording_concatenates_chunks (env : Env) (sess : RecordingSession)
    (rid : String) (cs : List Blob)
    (hact : sess.stream.active = true) (hok : env.recorderOk = true)
    (hcs : ∀ c ∈ cs, c.bytes ≠ []) :
    (stopRecording (deliverChunks cs (startRecording env rid (some sess)).1)).2 =
      [Ev.onMutate, Ev.recorderStop,
       Ev.onSuccess (some { bytes := (cs.map Blob.bytes).flatten,
                            mimeType := env.recorderMimeType }),
       Ev.onSettled] := by
  have hstart : (startRecording env rid (some sess)).1 =
      some { sess with recorder := some ⟨⟨sess.stream.id, env.recorderMimeType, sess.settings.bitsPerSecond⟩, [], rid⟩ } := by
    simp [startRecording, hact, hok]
  rw [hstart, deliverChunks_active _ _ _ hcs]
  simp [stopRecording]

def openSession : RecordingSession :=
  { settings := settingsStd, stream := ⟨1, true, [1]⟩, recorder := none }

/-- Witness for C1: three concrete chunks delivered into an open session yield
the artifact `[1, 2, 3, 4]` tagged `audio/webm`. -/
theorem stopRecording_concatenates_chunks_witness :
    (stopRecording (deliverChunks [⟨[1]⟩, ⟨[2, 3]⟩, ⟨[4]⟩]
        (startRecording envStd "c1" (some openSession)).1)).2 =
      [Ev.onMutate, Ev.recorderStop,
       Ev.onSuccess (some { bytes := [1, 2, 3, 4], mimeType := "audio/webm" }),
       Ev.onSettled] :=
  stopRecording_concatenates_chunks envStd openSession "c1" [⟨[1]⟩, ⟨[2, 3]⟩, ⟨[4]⟩]
    rfl rfl (by decide)

/-- C2 (code bug): after a successful `stopRecording` the active capture is not
cleared — `stopRecording` never writes the `recorder` field — so a
`closeRecordingSession` immediately following a successful stop fails with the
capture-in-progress error instead of succeeding. -/
theorem stop_then_close_fails_capture_in_progress :
    (stopRecording (deliverChunks [⟨[7]⟩]
        (startRecording envStd "c1"
          (initRecordingSession envStd settingsStd none).1).1)).2 =
      [Ev.onMutate, Ev.recorderStop, Ev.onSuccess (some ⟨[7], "audio/webm"⟩), Ev.onSettled]
    ∧ (closeRecordingSession
        (stopRecording (deliverChunks [⟨[7]⟩]
          (startRecording envStd "c1"
            (initRecordingSession envStd settingsStd none).1).1)).1).2 =
      [Ev.onMutate, Ev.onError "⏺️ Recording in Progress", Ev.onSettled] :=
  ⟨rfl, rfl⟩

/-- C3 (code bug): `closeRecordingSession` invoked with no session fires
`onError` and returns without ever calling `onSettled`: on that execution path
the settled callback fires zero times, not exactly once. -/
theorem close_no_session_skips_settled :
    closeRecordingSession none = (none, [Ev.onMutate, Ev.onError "❌ No Active Session"])
    ∧ ((closeRecordingSession none).2.countP Ev.isSettled) = 0 :=
  ⟨rfl, rfl⟩

/-- C4 (code bug): `startRecording` on a session whose stream has gone
inactive, when re-resolution fails, fires `onError` from the refresh callback
and then falls through to recorder construction, which succeeds and fires
`onSuccess` too: both completion callbacks fire in one invocation. -/
theorem start_fires_both_error_and_success :
    ((startRecording envNoDevices "c1" (some staleSession)).2.countP Ev.isError = 1)
    ∧ ((startRecording envNoDevices "c1" (some staleSession)).2.countP Ev.isSuccess = 1) :=
  ⟨rfl, rfl⟩

/-- C5 (code bug): `startRecording` on an inactive stream re-resolves with the
same settings and stores the fresh stream (id 1) in the session, but the
`MediaRecorder` is constructed from the stale `stream` binding destructured
before the refresh, so the capture is opened on the old inactive stream
(id 0), not on the session's re-resolved stream. -/
theorem start_opens_recorder_on_stale_stream :
    (startRecording envStd "c1" (some staleSession)).1 =
      some { settings := settingsStd, stream := ⟨1, true, [1]⟩,
             recorder := some ({ mediaRecorder := { streamId := 0, mimeType := "audio/webm",
                                                    bitsPerSecond := 128000 },
                                 recordedChunks := [], recordingId := "c1" }) }
    ∧ ((startRecording envStd "c1" (some staleSession)).1.map
        (fun sess => sess.stream.id)) = some 1
    ∧ ((startRecording envStd "c1" (some staleSession)).1.map
        (fun sess => sess.recorder.map (fun r => r.mediaRecorder.streamId))) =
      some (some 0) :=
  ⟨rfl, rfl, rfl⟩

/-- C6: `cancelRecording` with an active capture always succeeds — it stops
every track of the session stream, stops the media recorder and clears the
active capture; any chunk delivered afterwards leaves the state unchanged
(dropped, so it can never appear in a later artifact), and `stopRecording`
after the cancel fails with the nothing-to-stop error, never reaching its
success path; with no active capture `cancelRecording` fails with the
nothing-to-cancel error. -/
theorem cancelRecording_clears_capture (settings : RecordingSessionSettings)
    (stream : MediaStream) (r : Recorder) (c : Blob) :
    cancelRecording (some ⟨settings, stream, some r⟩) =
      (some ⟨settings, stream, none⟩,
        Ev.onMutate :: (stream.tracks.map Ev.trackStop
          ++ [Ev.recorderStop, Ev.onSuccess none, Ev.onSettled]))
    ∧ deliverChunk c (cancelRecording (some ⟨settings, stream, some r⟩)).1 =
        (cancelRecording (some ⟨settings, stream, some r⟩)).1
    ∧ (stopRecording (cancelRecording (some ⟨settings, stream, some r⟩)).1).2 =
        [Ev.onMutate, Ev.onError "⚠️ Nothing to Stop", Ev.onSettled]
    ∧ cancelRecording (some ⟨settings, stream, none⟩) =
        (some ⟨settings, stream, none⟩,
          [Ev.onMutate, Ev.onError "⚠️ Nothing to Cancel", Ev.onSettled])
    ∧ cancelRecording none =
        (none, [Ev.onMutate, Ev.onError "⚠️ Nothing to Cancel", Ev.onSettled]) := by
  refine ⟨rfl, ?_, rfl, rfl, rfl⟩
  by_cases h : c.bytes.length = 0 <;> simp [cancelRecording, deliverChunk, h]

/-- C7: `initRecordingSession` called while a session exists fails immediately
with the session-already-active error, leaves the state unchanged, and performs
no stream-resolution work (no enumeration, no acquisition attempt). -/
theorem init_second_session_rejected (env : Env) (settings : RecordingSessionSettings)
    (sess : RecordingSession) :
    initRecordingSession env settings (some sess) =
      (some sess, [Ev.onMutate, Ev.onError "⚠️ Session Already Active", Ev.onSettled])
    ∧ ((initRecordingSession env settings (some sess)).2.countP Ev.isAcquisition) = 0 :=
  ⟨rfl, rfl⟩

/-- C8: `closeRecordingSession` is a three-way case analysis — from no session
it fails with the session-not-found error; with an active capture it fails with
the capture-in-progress error leaving the state unchanged; from an open session
without capture it stops every track of the held stream and transitions to no
session. -/
theorem close_three_way_cases (settings : RecordingSessionSettings)
    (stream : MediaStream) (r : Recorder) :
    closeRecordingSession none = (none, [Ev.onMutate, Ev.onError "❌ No Active Session"])
    ∧ closeRecordingSession (some ⟨settings, stream, some r⟩) =
        (some ⟨settings, stream, some r⟩,
          [Ev.onMutate, Ev.onError "⏺️ Recording in Progress", Ev.onSettled])
    ∧ closeRecordingSession (some ⟨settings, stream, none⟩) =
        (none, Ev.onMutate :: (stream.tracks.map Ev.trackStop
          ++ [Ev.onSuccess none, Ev.onSettled])) :=
  ⟨rfl, rfl, rfl⟩

/-- C9: stream resolution with an empty device id goes straight to the fallback
(it literally is the fallback call, with no direct acquisition); given that
enumeration succeeds, the fallback returns the first listed audio input device
that acquires, attempts exactly the listed devices up to and including the
first success in order, and fails only when every known device fails or none
exist. -/
theorem resolve_empty_deviceId_fallback (env : Env) (bps : Nat)
    (henum : env.enumOk = true) :
    acquireStreamAndSetUpRecordingSession env { deviceId := "", bitsPerSecond := bps } =
      getFirstAvailableStream env
    ∧ (getFirstAvailableStream env).1 =
        (audioInputDevices env).findSome? (fun d => env.streamFor d.deviceId)
    ∧ ((getFirstAvailableStream env).1 = none ↔
        ∀ d ∈ audioInputDevices env, env.streamFor d.deviceId = none)
    ∧ (getFirstAvailableStream env).2 =
        Ev.enumerate :: (attemptedDevices env (audioInputDevices env)).map
          (fun d => Ev.acquire d.deviceId) := by
  refine ⟨rfl, ?_, ?_, ?_⟩
  · simp [getFirstAvailableStream, henum, tryEachDevice_result]
  · simp [getFirstAvailableStream, henum, tryEachDevice_none_iff]
  · simp [getFirstAvailableStream, henum, tryEachDevice_trace]

/-- Witness for C9: catalog `[D1, D2]`, `D1` fails, `D2` succeeds; resolution
with empty device id equals the fallback, which returns `D2`'s stream after
attempting `D1` then `D2`. -/
theorem resolve_empty_deviceId_fallback_witness :
    acquireStreamAndSetUpRecordingSession envTwoDevices
        { deviceId := "", bitsPerSecond := 128000 } =
      getFirstAvailableStream envTwoDevices
    ∧ (getFirstAvailableStream envTwoDevices).1 =
        (audioInputDevices envTwoDevices).findSome?
          (fun d => envTwoDevices.streamFor d.deviceId)
    ∧ ((getFirstAvailableStream envTwoDevices).1 = none ↔
        ∀ d ∈ audioInputDevices envTwoDevices, envTwoDevices.streamFor d.deviceId = none)
    ∧ (getFirstAvailableStream envTwoDevices).2 =
        Ev.enumerate :: (attemptedDevices envTwoDevices
          (audioInputDevices envTwoDevices)).map (fun d => Ev.acquire d.deviceId) :=
  resolve_empty_deviceId_fallback envTwoDevices 128000 rfl

/-- C10: a zero-size chunk delivery is silently dropped, and every delivery and
every service operation preserves the invariant that all chunks stored in the
active capture are non-empty — so zero-size chunks never contribute to any
artifact. -/
theorem recordedChunks_nonempty_invariant (env : Env)
    (settings : RecordingSessionSettings) (rid : String) (c : Blob) (s : SvcState)
    (hinv : chunksNonEmpty s = true) :
    deliverChunk ⟨[]⟩ s = s
    ∧ chunksNonEmpty (deliverChunk c s) = true
    ∧ chunksNonEmpty (initRecordingSession env settings s).1 = true
    ∧ chunksNonEmpty (closeRecordingSession s).1 = true
    ∧ chunksNonEmpty (startRecording env rid s).1 = true
    ∧ chunksNonEmpty (stopRecording s).1 = true
    ∧ chunksNonEmpty (cancelRecording s).1 = true := by
  cases s with
  | none =>
    refine ⟨rfl, rfl, ?_, rfl, rfl, rfl, rfl⟩
    cases hacq : (acquireStreamAndSetUpRecordingSession env settings).1 with
    | some st => simp [initRecordingSession, hacq, chunksNonEmpty]
    | none => simp [initRecordingSession, hacq, chunksNonEmpty]
  | some sess =>
    obtain ⟨settings0, stream0, rec0⟩ := sess
    cases rec0 with
    | none =>
      refine ⟨rfl, ?_, rfl, rfl, ?_, rfl, rfl⟩
      · by_cases h : c.bytes.length = 0 <;> simp [deliverChunk, chunksNonEmpty, h]
      · by_cases hact : stream0.active
        · by_cases hok : env.recorderOk <;>
            simp [startRecording, chunksNonEmpty, hact, hok]
        · cases hacq : (acquireStreamAndSetUpRecordingSession env settings0).1 with
          | some st =>
            by_cases hok : env.recorderOk <;>
              simp [startRecording, chunksNonEmpty, hact, hok, hacq]
          | none =>
            by_cases hok : env.recorderOk <;>
              simp [startRecording, chunksNonEmpty, hact, hok, hacq]
    | some r =>
      have hall : r.recordedChunks.all (fun cb => !cb.bytes.isEmpty) = true := by
        simpa [chunksNonEmpty] using hinv
      refine ⟨rfl, ?_, ?_, ?_, ?_, ?_, rfl⟩
      · by_cases h : c.bytes.length = 0
        · simp [deliverChunk, chunksNonEmpty, h, hall]
        · have hne : c.bytes.isEmpty = false := by
            cases hb : c.bytes with
            | nil => simp [hb] at h
            | cons x xs => simp [hb]
          simp [deliverChunk, chunksNonEmpty, h, hall, hne]
      · simpa [initRecordingSession, chunksNonEmpty] using hall
      · simpa [closeRecordingSession, chunksNonEmpty] using hall
      · by_cases hact : stream0.active
        · by_cases hok : env.recorderOk <;>
            simp [startRecording, chunksNonEmpty, hact, hok, hall]
        · cases hacq : (acquireStreamAndSetUpRecordingSession env settings0).1 with
          | some st =>
            by_cases hok : env.recorderOk <;>
              simp [startRecording, chunksNonEmpty, hact, hok, hacq, hall]
          | none =>
            by_cases hok : env.recorderOk <;>
              simp [startRecording, chunksNonEmpty, hact, hok, hacq, hall]
      · simpa [stopRecording, chunksNonEmpty] using hall

def capturingState : SvcState :=
  some { settings := settingsStd, stream := ⟨1, true, [1]⟩,
         recorder := some ({ mediaRecorder := ⟨1, "audio/webm", 128000⟩,
                             recordedChunks := [⟨[5]⟩], recordingId := "c0" }) }

/-- Witness for C10 at a concrete capturing state holding one non-empty
chunk. -/
theorem recordedChunks_nonempty_invariant_witness :
    deliverChunk ⟨[]⟩ capturingState = capturingState
    ∧ chunksNonEmpty (deliverChunk ⟨[9]⟩ capturingState) = true
    ∧ chunksNonEmpty (initRecordingSession envStd settingsStd capturingState).1 = true
    ∧ chunksNonEmpty (closeRecordingSession capturingState).1 = true
    ∧ chunksNonEmpty (startRecording envStd "c1" capturingState).1 = true
    ∧ chunksNonEmpty (stopRecording capturingState).1 = true
    ∧ chunksNonEmpty (cancelRecording capturingState).1 = true :=
  recordedChunks_nonempty_invariant envStd settingsStd "c1" ⟨[9]⟩ capturingState rfl

end WinWhisper
